import Mathlib

/-!
Verification of the contact-form backend (`src/main.py`).

The development shallowly embeds the three pieces of logic of the
repository: the diagnostics handler `test_database` (GET /test), the
notifier `send_whatsapp_message`, and the contact handler
`create_contact` (POST /api/contact).  External effects are made
explicit: the HTTP outcome of the notifier's POST and the result of the
persistence call are parameters, and the side effects a handler performs
are returned as an event trace.
-/

namespace Backend

/-- Python truthiness of an `Optional[str]` value (`None` and `""` are falsy).
Used for `all(required)` and for `if os.getenv(...)` checks. -/
def truthy : Option String → Bool
  | none => false
  | some s => !(s == "")

/-- Python string slicing `s[:n]`: the first `n` code points of `s`. -/
def takeChars (s : String) (n : Nat) : String :=
  String.mk (s.data.take n)

theorem takeChars_length_le (s : String) (n : Nat) :
    (takeChars s n).length ≤ n := by
  have h : (takeChars s n).length = (s.data.take n).length := rfl
  rw [h, List.length_take]
  exact Nat.min_le_left _ _

/-! ## Diagnostics handler: `test_database` (GET /test, lines 34-76) -/

/-- Outcome of the database sub-checks the handler probes:
`from database import db` can fail with `ImportError` or another
exception, the imported handle can be `None`, and when it is non-null,
`db.list_collection_names()` either returns names or raises.  The
`name` argument records `db.name` (absent when the handle has no such
attribute); the source reads it into `database_name`, which lines 73-74
later overwrite. -/
inductive DbState
  | importError
  | resolveError (e : String)
  | notInitialized
  | connected (name : Option String) (listResult : Except String (List String))
deriving Repr

/-- The environment variables the handler inspects at lines 73-74. -/
structure EnvVars where
  databaseUrl : Option String
  databaseName : Option String
deriving DecidableEq, Repr

/-- The JSON document returned by GET /test. -/
structure TestResponse where
  backend : String
  database : String
  database_url : String
  database_name : String
  connection_status : String
  collections : List String
deriving DecidableEq, Repr

/-- Embedding of `test_database` (src/main.py lines 34-76).  The Python
mutates a `response` dict; here each field is derived from the sub-check
outcome `st`.  The `database_url` / `database_name` fields are
unconditionally overwritten at lines 73-74 from the environment, so the
values written at lines 52-53 never reach the response. -/
def test_database (env : EnvVars) (st : DbState) : TestResponse :=
  let dbField : String :=
    match st with
    | DbState.importError =>
        "❌ Database module not found (run enable-database first)"
    | DbState.resolveError e => "❌ Error: " ++ takeChars e 50
    | DbState.notInitialized => "⚠️  Available but not initialized"
    | DbState.connected _ (Except.ok _) => "✅ Connected & Working"
    | DbState.connected _ (Except.error e) =>
        "⚠️  Connected but Error: " ++ takeChars e 50
  let connStatus : String :=
    match st with
    | DbState.connected _ _ => "Connected"
    | _ => "Not Connected"
  let colls : List String :=
    match st with
    | DbState.connected _ (Except.ok cs) => cs.take 10
    | _ => []
  { backend := "✅ Running"
    database := dbField
    database_url := if truthy env.databaseUrl then "✅ Set" else "❌ Not Set"
    database_name := if truthy env.databaseName then "✅ Set" else "❌ Not Set"
    connection_status := connStatus
    collections := colls }

/-! ## Notifier: `send_whatsapp_message` (lines 81-98) -/

/-- The process-wide Twilio configuration (lines 10-14).  Each credential
is an `Option String` since `os.getenv` returns `None` when unset. -/
structure TwilioConfig where
  enabled : Bool
  accountSid : Option String
  authToken : Option String
  whatsappFrom : Option String
  ownerTo : Option String
deriving DecidableEq, Repr

/-- One outgoing HTTP POST to the Twilio endpoint, recording the url and
the form fields `From`, `To`, `Body` (line 88-95). -/
structure HttpPost where
  url : String
  fromNumber : String
  toNumber : String
  body : String
deriving DecidableEq, Repr

/-- Embedding of `send_whatsapp_message` (lines 81-98).  `httpResult` is
the outcome of the `requests.post` call: `some status` for a response,
`none` when the call raises (timeout, DNS, connection refused).  The
second component of the result is the list of HTTP calls issued. -/
def send_whatsapp_message (cfg : TwilioConfig) (httpResult : Option Nat)
    (body : String) : Bool × List HttpPost :=
  if !cfg.enabled then (false, [])
  else if !(truthy cfg.accountSid && truthy cfg.authToken &&
            truthy cfg.whatsappFrom && truthy cfg.ownerTo) then (false, [])
  else
    let sid := cfg.accountSid.getD ""
    let url := "https://api.twilio.com/2010-04-01/Accounts/" ++ sid ++
               "/Messages.json"
    let call : HttpPost :=
      { url := url
        fromNumber := cfg.whatsappFrom.getD ""
        toNumber := cfg.ownerTo.getD ""
        body := body }
    match httpResult with
    | none => (false, [call])
    | some status => (status == 200 || status == 201, [call])

/-! ## Contact handler: `ContactIn` and `create_contact` (lines 101-126) -/

/-- The request model `ContactIn` (lines 101-105): `name`, `phone` and
`message` are required strings, `email` is optional with default
`None`.  No emptiness or format constraint is declared on any field. -/
structure ContactIn where
  name : String
  phone : String
  email : Option String
  message : String
deriving DecidableEq, Repr

/-- The persisted record `ContactMessage` (schemas module), built at
line 110 from the validated payload's fields. -/
structure ContactMessage where
  name : String
  phone : String
  email : Option String
  message : String
deriving DecidableEq, Repr

/-- A raw JSON body for POST /api/contact before structural validation:
each field may be absent. -/
structure RawContact where
  name : Option String
  phone : Option String
  email : Option String
  message : Option String
deriving DecidableEq, Repr

/-- FastAPI/pydantic structural validation of the body against
`ContactIn`: the required fields `name`, `phone`, `message` must be
present; `email` may be absent (`None` default). -/
def parseContact (raw : RawContact) : Option ContactIn :=
  match raw.name, raw.phone, raw.message with
  | some n, some p, some m =>
      some { name := n, phone := p, email := raw.email, message := m }
  | _, _, _ => none

/-- A side effect performed by the contact handler: a document handed to
`create_document` (line 112), or a notifier invocation (line 124). -/
inductive Event
  | persist (collection : String) (msg : ContactMessage)
  | notify (body : String)
deriving DecidableEq, Repr

/-- An HTTP error response (`HTTPException` or validation rejection). -/
structure HttpError where
  status : Nat
  detail : String
deriving DecidableEq, Repr

/-- The success body `{"ok": True, "id": doc_id}` (line 126). -/
structure ContactResponse where
  ok : Bool
  id : String
deriving DecidableEq, Repr

/-- `msg.email or '-'` at line 121: Python `or` falls through to `'-'`
when the email is `None` or the empty string. -/
def orDash : Option String → String
  | none => "-"
  | some e => if e == "" then "-" else e

/-- The notification body built at lines 117-123. -/
def notificationBody (msg : ContactMessage) : String :=
  "New Contact Message\n" ++
  "Name: " ++ msg.name ++ "\n" ++
  "Phone: " ++ msg.phone ++ "\n" ++
  "Email: " ++ orDash msg.email ++ "\n" ++
  "Message: " ++ takeChars msg.message 500

/-- Embedding of `create_contact` (lines 107-126).  `persistResult` is
the outcome of `create_document("contactmessage", msg)`: a generated
identifier, or the exception's message.  `notifyResult` is the boolean
the notifier would return; the source discards it (line 124).  The
second component is the trace of side effects in order. -/
def create_contact (payload : ContactIn) (persistResult : Except String String)
    (notifyResult : Bool) : Except HttpError ContactResponse × List Event :=
  let msg : ContactMessage :=
    { name := payload.name, phone := payload.phone
      email := payload.email, message := payload.message }
  match persistResult with
  | Except.error e =>
      (Except.error { status := 500, detail := "Database error: " ++ takeChars e 120 },
       [Event.persist "contactmessage" msg])
  | Except.ok doc_id =>
      let body := notificationBody msg
      let _ := notifyResult
      (Except.ok { ok := true, id := doc_id },
       [Event.persist "contactmessage" msg, Event.notify body])

/-- The full POST /api/contact pipeline: structural validation by the
transport (422 on missing required fields, before the handler body
runs), then `create_contact`. -/
def handleContactRequest (raw : RawContact) (persistResult : Except String String)
    (notifyResult : Bool) : Except HttpError ContactResponse × List Event :=
  match parseContact raw with
  | none => (Except.error { status := 422, detail := "Unprocessable Entity" }, [])
  | some payload => create_contact payload persistResult notifyResult

/-! ## Claim theorems -/

/-- C1: for every valid contact payload, when persistence succeeds with
identifier `doc_id`, POST /api/contact returns `{ok: true, id: doc_id}`,
and the whole handler outcome is identical whether the notifier returns
`true` or `false`. -/
theorem create_contact_notifier_independence (payload : ContactIn) (doc_id : String)
    (b1 b2 : Bool) :
    create_contact payload (Except.ok doc_id) b1 =
      create_contact payload (Except.ok doc_id) b2 ∧
    (create_contact payload (Except.ok doc_id) b1).1 =
      Except.ok { ok := true, id := doc_id } := by
  exact ⟨rfl, rfl⟩

/-- C2: a payload missing `name`, `phone` or `message` is rejected with a
client error (422) and the handler performs no side effect: the event
trace is empty, so persistence is never invoked and no ContactMessage
reaches it. -/
theorem contact_missing_field_rejected (raw : RawContact)
    (persistResult : Except String String) (b : Bool)
    (h : raw.name = none ∨ raw.phone = none ∨ raw.message = none) :
    (handleContactRequest raw persistResult b).1 =
      Except.error { status := 422, detail := "Unprocessable Entity" } ∧
    (handleContactRequest raw persistResult b).2 = [] := by
  cases raw with
  | mk n p e m =>
    cases n <;> cases p <;> cases m <;>
      simp_all [handleContactRequest, parseContact]

theorem contact_missing_field_rejected_witness :
    (handleContactRequest
        { name := none, phone := some "555-1", email := none, message := some "Hi" }
        (Except.ok "id0") true).1 =
      Except.error { status := 422, detail := "Unprocessable Entity" } ∧
    (handleContactRequest
        { name := none, phone := some "555-1", email := none, message := some "Hi" }
        (Except.ok "id0") true).2 = [] :=
  contact_missing_field_rejected _ _ _ (Or.inl rfl)

/-- C3: when persistence raises with message `e`, the handler fails with
a 500 response whose detail embeds `e` truncated to at most 120
characters, and the trace shows exactly one persistence attempt and no
notification: persistence strictly precedes any notifier call. -/
theorem create_contact_persist_failure (payload : ContactIn) (e : String) (b : Bool) :
    (create_contact payload (Except.error e) b).1 =
      Except.error { status := 500, detail := "Database error: " ++ takeChars e 120 } ∧
    (takeChars e 120).length ≤ 120 ∧
    (create_contact payload (Except.error e) b).2 =
      [Event.persist "contactmessage"
        { name := payload.name, phone := payload.phone
          email := payload.email, message := payload.message }] := by
  exact ⟨rfl, takeChars_length_le e 120, rfl⟩

/-- C4: on persistence success the trace is the persist of the full
record followed by one notification whose body lists the name, the
phone, the email (or a dash when absent) and the message truncated to
500 characters, while the persisted record keeps the untruncated
message. -/
theorem create_contact_notification_content (payload : ContactIn) (doc_id : String)
    (b : Bool) :
    (create_contact payload (Except.ok doc_id) b).2 =
      [Event.persist "contactmessage"
         { name := payload.name, phone := payload.phone
           email := payload.email, message := payload.message },
       Event.notify
         ("New Contact Message\n" ++
          "Name: " ++ payload.name ++ "\n" ++
          "Phone: " ++ payload.phone ++ "\n" ++
          "Email: " ++ orDash payload.email ++ "\n" ++
          "Message: " ++ takeChars payload.message 500)] ∧
    (takeChars payload.message 500).length ≤ 500 := by
  exact ⟨rfl, takeChars_length_le _ _⟩

/-- C5: with the flag enabled and all four credentials truthy, the
notifier issues exactly one HTTP POST and returns `true` iff the
response status is 200 or 201; any other status, and a raised transport
exception (`httpResult = none`), yield `false` — never an exception. -/
theorem send_whatsapp_status_criterion (cfg : TwilioConfig) (httpResult : Option Nat)
    (body : String)
    (hEnabled : cfg.enabled = true)
    (hSid : truthy cfg.accountSid = true)
    (hTok : truthy cfg.authToken = true)
    (hFrom : truthy cfg.whatsappFrom = true)
    (hTo : truthy cfg.ownerTo = true) :
    (send_whatsapp_message cfg httpResult body).2.length = 1 ∧
    ((send_whatsapp_message cfg httpResult body).1 = true ↔
      httpResult = some 200 ∨ httpResult = some 201) := by
  cases httpResult with
  | none => simp [send_whatsapp_message, hEnabled, hSid, hTok, hFrom, hTo]
  | some status =>
      simp [send_whatsapp_message, hEnabled, hSid, hTok, hFrom, hTo]

theorem send_whatsapp_status_criterion_witness :
    (send_whatsapp_message
        { enabled := true, accountSid := some "AC1", authToken := some "tok"
          whatsappFrom := some "whatsapp:+14155238886"
          ownerTo := some "whatsapp:+919782017257" }
        (some 201) "hello").2.length = 1 ∧
    ((send_whatsapp_message
        { enabled := true, accountSid := some "AC1", authToken := some "tok"
          whatsappFrom := some "whatsapp:+14155238886"
          ownerTo := some "whatsapp:+919782017257" }
        (some 201) "hello").1 = true ↔
      (some 201 : Option Nat) = some 200 ∨ (some 201 : Option Nat) = some 201) :=
  send_whatsapp_status_criterion _ (some 201) "hello"
    rfl (by decide) (by decide) (by decide) (by decide)

/-- C6: when the feature flag is disabled, or any of the four
credentials is missing or empty, the notifier returns `false` with an
empty call trace — no HTTP call is attempted; in particular a disabled
flag short-circuits regardless of the credential values. -/
theorem send_whatsapp_no_call (cfg : TwilioConfig) (httpResult : Option Nat)
    (body : String)
    (h : cfg.enabled = false ∨ truthy cfg.accountSid = false ∨
         truthy cfg.authToken = false ∨ truthy cfg.whatsappFrom = false ∨
         truthy cfg.ownerTo = false) :
    send_whatsapp_message cfg httpResult body = (false, []) := by
  rcases h with h | h | h | h | h <;>
    cases hc : cfg.enabled <;>
      simp [send_whatsapp_message, h, hc]

theorem send_whatsapp_no_call_witness :
    send_whatsapp_message
      { enabled := false, accountSid := some "AC2", authToken := some "tok2"
        whatsappFrom := some "whatsapp:+10000000000"
        ownerTo := some "whatsapp:+20000000000" }
      (some 201) "hello again" = (false, []) :=
  send_whatsapp_no_call _ (some 201) "hello again" (Or.inl rfl)

/-- C7 counterexample: a payload with empty `name` and empty `phone`
passes validation, is persisted as a ContactMessage with empty name and
phone, and the request succeeds — refuting that the handler accepts no
payload with empty name or phone. -/
theorem contact_empty_name_accepted :
    (handleContactRequest
        { name := some "", phone := some "", email := none, message := some "hi" }
        (Except.ok "id1") true).1 = Except.ok { ok := true, id := "id1" } ∧
    Event.persist "contactmessage"
        { name := "", phone := "", email := none, message := "hi" } ∈
      (handleContactRequest
        { name := some "", phone := some "", email := none, message := some "hi" }
        (Except.ok "id1") true).2 := by
  exact ⟨rfl, by decide⟩

/-- C7 amended: every ContactMessage persisted by the contact handler
carries `name`, `phone`, `email` and `message` verbatim from the
payload's present fields, under the collection name "contactmessage";
non-emptiness of name or phone is not enforced. -/
theorem contact_persisted_fields_from_payload (raw : RawContact)
    (persistResult : Except String String) (b : Bool) (col : String)
    (msg : ContactMessage)
    (h : Event.persist col msg ∈ (handleContactRequest raw persistResult b).2) :
    col = "contactmessage" ∧ raw.name = some msg.name ∧
    raw.phone = some msg.phone ∧ raw.email = msg.email ∧
    raw.message = some msg.message := by
  cases raw with
  | mk n p e m =>
    cases n <;> cases p <;> cases m <;>
      cases persistResult <;>
        simp_all [handleContactRequest, parseContact, create_contact]

theorem contact_persisted_fields_from_payload_witness :
    ("contactmessage" : String) = "contactmessage" ∧
    (some "Ana" : Option String) = some "Ana" ∧
    (some "555-1" : Option String) = some "555-1" ∧
    (none : Option String) = (none : Option String) ∧
    (some "Hi" : Option String) = some "Hi" :=
  contact_persisted_fields_from_payload
    { name := some "Ana", phone := some "555-1", email := none, message := some "Hi" }
    (Except.ok "id2") true "contactmessage"
    { name := "Ana", phone := "555-1", email := none, message := "Hi" }
    (by decide)

/-- C8: the diagnostics handler is total over every sub-check outcome —
module import failure, handle-resolution exception, null handle,
enumeration failure — and each failure is rendered as a descriptive
string in the `database` field, with embedded error messages truncated
to at most 50 characters. -/
theorem test_database_never_raises (env : EnvVars) (st : DbState) :
    (test_database env st).backend = "✅ Running" ∧
    (match st with
     | DbState.importError =>
         (test_database env st).database =
           "❌ Database module not found (run enable-database first)"
     | DbState.resolveError e =>
         (test_database env st).database = "❌ Error: " ++ takeChars e 50 ∧
         (takeChars e 50).length ≤ 50
     | DbState.notInitialized =>
         (test_database env st).database = "⚠️  Available but not initialized"
     | DbState.connected _ (Except.ok _) =>
         (test_database env st).database = "✅ Connected & Working"
     | DbState.connected _ (Except.error e) =>
         (test_database env st).database =
           "⚠️  Connected but Error: " ++ takeChars e 50 ∧
         (takeChars e 50).length ≤ 50) := by
  refine ⟨rfl, ?_⟩
  cases st with
  | importError => exact rfl
  | resolveError e => exact ⟨rfl, takeChars_length_le e 50⟩
  | notInitialized => exact rfl
  | connected nm lr =>
      cases lr with
      | ok cs => exact rfl
      | error e => exact ⟨rfl, takeChars_length_le e 50⟩

/-- C9: the `database_url` and `database_name` fields of the /test
response depend only on the presence of the DATABASE_URL and
DATABASE_NAME environment variables: they are invariant across database
states and equal the env-determined set/unset strings. -/
theorem test_database_env_flags (env : EnvVars) (st1 st2 : DbState) :
    (test_database env st1).database_url = (test_database env st2).database_url ∧
    (test_database env st1).database_name = (test_database env st2).database_name ∧
    (test_database env st1).database_url =
      (if truthy env.databaseUrl then "✅ Set" else "❌ Not Set") ∧
    (test_database env st1).database_name =
      (if truthy env.databaseName then "✅ Set" else "❌ Not Set") := by
  exact ⟨rfl, rfl, rfl, rfl⟩

/-- C10: whenever the database handle resolves non-null, the /test
response reports `connection_status = "Connected"` even if enumeration
fails, and the `collections` field holds the first 10 names on success,
the empty list on failure — in all cases at most 10 entries. -/
theorem test_database_connected_bounds (env : EnvVars) (nm : Option String)
    (lr : Except String (List String)) :
    (test_database env (DbState.connected nm lr)).connection_status = "Connected" ∧
    (test_database env (DbState.connected nm lr)).collections =
      (match lr with | Except.ok cs => cs.take 10 | Except.error _ => []) ∧
    (test_database env (DbState.connected nm lr)).collections.length ≤ 10 := by
  refine ⟨rfl, ?_, ?_⟩ <;>
    cases lr with
    | ok cs =>
        first
        | exact rfl
        | simp [test_database, List.length_take]
    | error e => simp [test_database]

end Backend
